import Mathlib

/-!
Verification of the multi-backend orchestration core of cc-docker-demo.

The definitions below are a shallow embedding of the JavaScript source:
  - src/lib/common.mjs     (resolveToken, lines 29-61)
  - src/mode-sandbox.mjs   (sandboxExists lines 49-56, ensureSandboxReady lines 116-140)
  - src/mode-fly.mjs       (runModeFly, lines 150-198)
External effects (environment variables, file reads, spawned processes,
asynchronous log chunks) are passed in explicitly as data; machine integers
are modelled as Int (JS numbers in the relevant ranges are exact).
-/

/-! ## String primitives modelling the JavaScript string operations used -/

/-- Models testing whether the literal pat occurs at the head of s
(the anchored step of both String.prototype.includes and a regex literal). -/
def startsWithLit : List Char → List Char → Bool
  | [], _ => true
  | _ :: _, [] => false
  | l :: ls, c :: cs => (l == c) && startsWithLit ls cs

/-- Models substring search: true when pat occurs somewhere in s. -/
def hasSubstr (pat : List Char) : List Char → Bool
  | [] => startsWithLit pat []
  | c :: cs => startsWithLit pat (c :: cs) || hasSubstr pat cs

/-- Models the JS expression s.includes(pat). -/
def jsIncludes (s pat : String) : Bool := hasSubstr pat.data s.data

/-- Helper of jsSplitLines: accumulates the current line (reversed) while
scanning for the newline separator. -/
def jsSplitLinesAux : List Char → List Char → List (List Char)
  | [], acc => [acc.reverse]
  | c :: cs, acc =>
    if c = '\n' then acc.reverse :: jsSplitLinesAux cs []
    else jsSplitLinesAux cs (c :: acc)

/-- Models the JS expression s.split(String.fromCharCode(10)): the list of
lines of s, splitting at every newline character. -/
def jsSplitLines (s : String) : List String :=
  (jsSplitLinesAux s.data []).map String.mk

/-- Models the JS truthiness test on an optional string value: an absent
value and the empty string are falsy, every other string is truthy. -/
def jsTruthy : Option String → Bool
  | none => false
  | some s => !(s == "")

/-! ## Credential resolver: resolveToken of src/lib/common.mjs, lines 29-61 -/

/-- Which credential source produced the token (line 31 vs line 40). -/
inductive TokenSource where
  | envVar
  | credFile
deriving DecidableEq

/-- The claudeAiOauth object read from the credentials JSON file:
accessToken (absent when the key is missing) and expiresAt in epoch
milliseconds. -/
structure CredsJson where
  accessToken : Option String
  expiresAt : Int
deriving DecidableEq

/-- The external inputs consumed by resolveToken: the
CLAUDE_CODE_OAUTH_TOKEN environment variable (none when unset), the parsed
credentials file (none when the read or the JSON parse throws, line 54),
and the current time in epoch milliseconds. -/
structure ResolveEnv where
  envToken : Option String
  creds : Option CredsJson
  nowMs : Int
deriving DecidableEq

/-- The observable outcome of resolveToken: either a token value together
with its source, or process.exit(1) preceded by a first error line on
stderr (lines 48-49 and 55-59 of common.mjs). -/
inductive ResolveOutcome where
  | ok (value : String) (source : TokenSource)
  | exit1 (firstErrorLine : String)
deriving DecidableEq

/-- First stderr line of the expired branch, common.mjs line 48. -/
def MSG_EXPIRED : String := "❌ OAuth token expired. Run \"claude\" to refresh, then retry."

/-- First stderr line of the catch branch, common.mjs line 55. -/
def MSG_NO_TOKEN : String := "❌ No token found. Either:"

/-- Models the JS test hoursLeft <= 0 of common.mjs line 47, where
hoursLeft = ((expiresAt - now) / 3600000).toFixed(1) and the string is
coerced back to a number by <=. Rounding the hour figure to one decimal
and comparing with zero is the same as comparing the rounded count of
tenths of an hour (the value divided by 360000 milliseconds) with zero,
which holds exactly when the remaining time is below 180000 milliseconds;
the theorem hoursLeftNonpos_round below proves this agreement. -/
def hoursLeftNonpos (diffMs : Int) : Bool :=
  decide (diffMs < 180000)

/-- Priority 2 of resolveToken (common.mjs lines 37-60): read the
credentials file; a missing file, a parse failure or a falsy accessToken
all land in the catch branch (no-token exit); a token whose displayed
hours-left figure is not positive triggers the expired exit; otherwise the
token is returned. -/
def resolveFromCredsFile (creds : Option CredsJson) (nowMs : Int) : ResolveOutcome :=
  match creds with
  | none => ResolveOutcome.exit1 MSG_NO_TOKEN
  | some c =>
    match c.accessToken with
    | none => ResolveOutcome.exit1 MSG_NO_TOKEN
    | some tok =>
      if tok = "" then ResolveOutcome.exit1 MSG_NO_TOKEN
      else if hoursLeftNonpos (c.expiresAt - nowMs) then ResolveOutcome.exit1 MSG_EXPIRED
      else ResolveOutcome.ok tok TokenSource.credFile

/-- resolveToken of common.mjs lines 29-61: priority 1 is the
CLAUDE_CODE_OAUTH_TOKEN environment variable (returned with no expiry
check when truthy, lines 31-34); priority 2 is the credentials file. -/
def resolveToken (env : ResolveEnv) : ResolveOutcome :=
  match env.envToken with
  | some t => if t = "" then resolveFromCredsFile env.creds env.nowMs
              else ResolveOutcome.ok t TokenSource.envVar
  | none => resolveFromCredsFile env.creds env.nowMs

/-! ## Persistent sandbox: src/mode-sandbox.mjs -/

/-- The fixed persistent sandbox name, mode-sandbox.mjs line 32. -/
def SANDBOX_NAME : String := "cpm-demo-persistent"

/-- sandboxExists of mode-sandbox.mjs lines 49-56: the output of the
listing command (none when execSync throws) is split on newlines and the
sandbox exists when some line has SANDBOX_NAME as a substring. -/
def sandboxExists (lsOutput : Option String) : Bool :=
  match lsOutput with
  | none => false
  | some out => (jsSplitLines out).any (fun line => jsIncludes line SANDBOX_NAME)

/-- The externally visible steps of ensureSandboxReady: the creation
command (line 126) and the credential injection (line 139). -/
inductive EnsureAction where
  | create
  | inject
deriving DecidableEq

/-- External inputs of one ensureSandboxReady call: the listing output
observed by sandboxExists, and whether the creation command would fail. -/
structure SandboxWorld where
  lsOutput : Option String
  createFails : Bool

/-- ensureSandboxReady of mode-sandbox.mjs lines 116-140, up to the point
where credential injection is dispatched: when the sandbox is listed, the
creation step is skipped entirely and the call proceeds directly to
injection; otherwise creation runs first (throwing when it fails). The
injection step itself consumes host credentials and is outside this model. -/
def ensureSandboxReady (w : SandboxWorld) : Except String (List EnsureAction) :=
  if sandboxExists w.lsOutput then Except.ok [EnsureAction.inject]
  else if w.createFails then Except.error "Failed to create sandbox"
  else Except.ok [EnsureAction.create, EnsureAction.inject]

/-! ## Fly correlation core: runModeFly of src/mode-fly.mjs, lines 150-198 -/

/-- The exit-signal test of the fly logs data handler, mode-fly.mjs lines
158-159: machineId must be truthy (null before the launch stdout is
parsed, and the empty string is falsy), the chunk must contain the literal
runner[machineId], and the chunk must contain the termination phrase. -/
def chunkSignalsExit (machineId : Option String) (chunk : String) : Bool :=
  match machineId with
  | none => false
  | some id =>
    if id = "" then false
    else jsIncludes chunk ("runner[" ++ id ++ "]") &&
         jsIncludes chunk "machine restart policy"

/-- Whether the exit promise has been resolved after the given chunks were
delivered to the handler with a fixed machineId in scope. -/
def signalAfter (machineId : Option String) (chunks : List String) : Bool :=
  chunks.any (chunkSignalsExit machineId)

/-- JS regex whitespace characters (the ASCII part of the backslash-s
class) used by the Machine ID pattern. -/
def jsWhitespace (c : Char) : Bool :=
  c = ' ' || c = '\t' || c = '\n' || c = '\r' || c = '\x0b' || c = '\x0c'

/-- Character class of the captured identifier in the Machine ID pattern:
lowercase letters and digits. -/
def machineIdChar (c : Char) : Bool :=
  ('a' ≤ c && c ≤ 'z') || ('0' ≤ c && c ≤ '9')

/-- Models matching an anchored literal: when lit occurs at the head of s,
returns the remainder of s. -/
def stripLit : List Char → List Char → Option (List Char)
  | [], s => some s
  | _ :: _, [] => none
  | l :: ls, c :: cs => if l = c then stripLit ls cs else none

/-- Models the regex match of mode-fly.mjs line 174 on a launch stdout
chunk: the leftmost position where the literal label, optional whitespace
and a nonempty lowercase-alphanumeric identifier all match yields the
captured identifier. -/
def findMachineId : List Char → Option String
  | [] => none
  | c :: cs =>
    match stripLit "Machine ID:".data (c :: cs) with
    | some rest =>
      let id := (rest.dropWhile jsWhitespace).takeWhile machineIdChar
      if id = [] then findMachineId cs else some (String.mk id)
    | none => findMachineId cs

/-- An asynchronous arrival during the correlation phase: a chunk on the
shared fly logs stream, or a chunk of the launch-call stdout. -/
inductive FlyEvent where
  | logChunk (chunk : String)
  | launchStdout (chunk : String)
deriving DecidableEq

/-- The mutable correlation state of runModeFly: machineId (null until
parsed from launch stdout, line 150) and whether resolveExit has run. -/
structure FlyState where
  machineId : Option String
  exitSignaled : Bool
deriving DecidableEq

/-- Initial correlation state: machineId null, exit promise pending. -/
def flyInit : FlyState := { machineId := none, exitSignaled := false }

/-- One arrival processed by the two data handlers of mode-fly.mjs: a
launch stdout chunk updates machineId when the pattern matches (lines
173-176); a log chunk resolves the exit promise when the joint test of
lines 158-159 passes against the machineId current at arrival time. -/
def flyStep (st : FlyState) : FlyEvent → FlyState
  | FlyEvent.launchStdout chunk =>
    match findMachineId chunk.data with
    | some id => { st with machineId := some id }
    | none => st
  | FlyEvent.logChunk chunk =>
    if chunkSignalsExit st.machineId chunk then { st with exitSignaled := true }
    else st

/-- The correlation state after a sequence of arrivals, processed in
arrival order starting from the initial state. -/
def flyRun (events : List FlyEvent) : FlyState :=
  events.foldl flyStep flyInit

/-- The fixed upper bound of the wait, mode-fly.mjs line 183:
5 * 60 * 1000 milliseconds. -/
def FLY_TIMEOUT_MS : Nat := 5 * 60 * 1000

/-- Which branch of the race at line 183 completes first, given whether a
matching log chunk arrived before the FLY_TIMEOUT_MS deadline. -/
inductive AwaitOutcome where
  | signaled
  | timedOut
deriving DecidableEq

/-- The race of mode-fly.mjs line 183: the exit signal when one was
observed among the arrivals before the deadline, the timer otherwise. -/
def awaitExit (sig : Bool) : AwaitOutcome :=
  if sig then AwaitOutcome.signaled else AwaitOutcome.timedOut

/-- The record returned by runModeFly at line 198: mode and exitCode,
where exitCode is an integer or null. -/
structure FlyRunResult where
  mode : String
  exitCode : Option Int
deriving DecidableEq

/-- Lines 183-198 of mode-fly.mjs, given the exit code of the launch call
and the arrivals delivered before the deadline: race the exit signal
against the timer, then return the record with exitCode := result.code
(the launch-call exit code, on every path). -/
def flyWaitAndReport (launchCode : Int) (events : List FlyEvent) :
    AwaitOutcome × FlyRunResult :=
  (awaitExit (flyRun events).exitSignaled,
   { mode := "fly", exitCode := some launchCode })

/-- The banner choice of mode-fly.mjs line 193: the success banner is
printed exactly when the reported exit code equals zero. -/
def flySuccessBanner (r : FlyRunResult) : Bool := r.exitCode == some 0

/-- How the awaited launch call at lines 170-180 ends: the close event
with its exit code, or the error event whose rejection propagates. -/
inductive LaunchOutcome where
  | closed (code : Int)
  | spawnError (msg : String)
deriving DecidableEq

/-- The externally visible actions of the correlation phase of runModeFly,
in program order: spawn the fly logs subscription (line 154), the 1500 ms
settle sleep (line 165), spawn the launch call (line 171), the race of
line 183, the 2000 ms flush sleep (line 186), and killing the log process
(line 187). -/
inductive FlyAction where
  | subscribeLogs
  | sleepConnect
  | launchMachine
  | awaitSignal
  | flushSleep
  | killLogs
deriving DecidableEq

/-- The action trace of one runModeFly correlation phase as a function of
how the launch call ends. When the launch spawn errors, the rejected
promise makes the await at line 170 throw out of runModeFly, so the
actions of lines 183-187 (including logProc.kill) never run; when the
launch call closes, the remaining actions all run regardless of whether
the race is won by the signal or by the timer. -/
def runModeFlyTrace (launch : LaunchOutcome) : List FlyAction :=
  match launch with
  | LaunchOutcome.spawnError _ =>
    [FlyAction.subscribeLogs, FlyAction.sleepConnect, FlyAction.launchMachine]
  | LaunchOutcome.closed _ =>
    [FlyAction.subscribeLogs, FlyAction.sleepConnect, FlyAction.launchMachine,
     FlyAction.awaitSignal, FlyAction.flushSleep, FlyAction.killLogs]

/-- The three-line log stream of the correlator test scenario. -/
def c2Stream : List String :=
  ["runner[abc] started",
   "runner[xyz] machine restart policy set to \x27no\x27",
   "runner[abc] machine restart policy set to \x27no\x27"]

/-! ## Supporting lemmas -/

/-- The executable expiry test agrees with the display-rounding reading of
common.mjs line 47: rounding the remaining tenths of an hour and comparing
with zero is deciding whether fewer than 180000 milliseconds remain. -/
theorem hoursLeftNonpos_round (d : Int) :
    hoursLeftNonpos d = decide (round ((d : ℚ) / 360000) ≤ 0) := by
  unfold hoursLeftNonpos
  rw [decide_eq_decide]
  rw [round_eq]
  constructor
  · intro h
    have hd : (d : ℚ) < 180000 := by exact_mod_cast h
    have h2 : ⌊(d : ℚ) / 360000 + 1 / 2⌋ < 1 := by
      rw [Int.floor_lt]
      push_cast
      linarith
    omega
  · intro h
    by_contra hc
    push_neg at hc
    have h1 : (1 : ℤ) ≤ ⌊(d : ℚ) / 360000 + 1 / 2⌋ := by
      rw [Int.le_floor]
      have hd : (180000 : ℚ) ≤ (d : ℚ) := by exact_mod_cast hc
      push_cast
      linarith
    omega

/-- When the environment override is falsy, resolveToken falls through to
the credentials file branch. -/
theorem resolveToken_falsy (env : ResolveEnv) (h : jsTruthy env.envToken = false) :
    resolveToken env = resolveFromCredsFile env.creds env.nowMs := by
  unfold resolveToken
  cases henv : env.envToken with
  | none => rfl
  | some t =>
    rw [henv] at h
    simp only [jsTruthy, Bool.not_eq_false', beq_iff_eq] at h
    simp [h]

/-- Inversion for the credentials-file branch: a returned token comes from
a parsed file whose accessToken is nonempty and whose remaining life is at
least 180000 milliseconds. -/
theorem resolveFromCredsFile_ok (creds : Option CredsJson) (nowMs : Int)
    (v : String) (s : TokenSource)
    (h : resolveFromCredsFile creds nowMs = ResolveOutcome.ok v s) :
    s = TokenSource.credFile ∧
    ∃ c, creds = some c ∧ c.accessToken = some v ∧ v ≠ "" ∧
      180000 ≤ c.expiresAt - nowMs := by
  cases creds with
  | none => simp [resolveFromCredsFile] at h
  | some c =>
    cases hat : c.accessToken with
    | none => simp [resolveFromCredsFile, hat] at h
    | some tok =>
      by_cases he : tok = ""
      · simp [resolveFromCredsFile, hat, he] at h
      · by_cases hex : hoursLeftNonpos (c.expiresAt - nowMs) = true
        · simp [resolveFromCredsFile, hat, he, hex] at h
        · have hge : 180000 ≤ c.expiresAt - nowMs := by
            unfold hoursLeftNonpos at hex
            simp at hex
            omega
          simp [resolveFromCredsFile, hat, he, hex] at h
          obtain ⟨hv, hs⟩ := h
          exact ⟨hs.symm, c, rfl, by rw [hat, hv], by rw [← hv]; exact he, hge⟩

/-! ## Claims -/

/-- C1 counterexample: a run in which no log line matching the instance is
observed before the bound (here: no arrivals at all, so the race is won by
the timer) still reports the launch-call exit code 0 in the RunResult, not
a null exitCode, and the success banner is chosen from that code. -/
theorem c1_counterexample :
    (flyWaitAndReport 0 []).1 = AwaitOutcome.timedOut ∧
    (flyWaitAndReport 0 []).2 = { mode := "fly", exitCode := some 0 } ∧
    (flyWaitAndReport 0 []).2.exitCode ≠ none ∧
    flySuccessBanner (flyWaitAndReport 0 []).2 = true := by
  decide

/-- C1 (amended): on every ephemeral-remote-machine run, timed out or not,
the produced RunResult carries exitCode equal to the launch-call exit code
(never null), and the success banner is shown exactly when that exit code
is zero — a timed-out run is indistinguishable from an observed completion
in the RunResult. -/
theorem c1_amended (code : Int) (events : List FlyEvent) :
    (flyWaitAndReport code events).2.exitCode = some code ∧
    (flySuccessBanner (flyWaitAndReport code events).2 = true ↔ code = 0) := by
  refine ⟨rfl, ?_⟩
  simp [flyWaitAndReport, flySuccessBanner]

/-- C2: the correlator signals completion only when one line jointly
references the observed instance and contains the termination phrase; on
the three-line stream with instanceId abc, the signal fires after the
third line and not after the first or second. -/
theorem c2_joint_predicate :
    (∀ id line, chunkSignalsExit (some id) line = true ↔
      (id ≠ "" ∧ jsIncludes line ("runner[" ++ id ++ "]") = true ∧
        jsIncludes line "machine restart policy" = true)) ∧
    signalAfter (some "abc") (c2Stream.take 1) = false ∧
    signalAfter (some "abc") (c2Stream.take 2) = false ∧
    signalAfter (some "abc") c2Stream = true := by
  refine ⟨?_, by decide, by decide, by decide⟩
  intro id line
  by_cases h : id = ""
  · simp [chunkSignalsExit, h]
  · simp [chunkSignalsExit, h, Bool.and_eq_true]

/-- C3 counterexample: when the launch call fails to spawn, the rejection
propagates out of the run before line 187 of mode-fly.mjs, so the log
subscription is not closed on that exit path. -/
theorem c3_counterexample :
    FlyAction.killLogs ∉ runModeFlyTrace (LaunchOutcome.spawnError "spawn fly ENOENT") := by
  decide

/-- C3 (amended): on the exit-marker-matched and timed-out exit paths
(both reached once the launch call closes) the log subscription is closed
before the run returns; when the launch spawn errors, the rejection
propagates out of the run and the subscription is not closed by it. -/
theorem c3_amended (code : Int) (msg : String) :
    FlyAction.killLogs ∈ runModeFlyTrace (LaunchOutcome.closed code) ∧
    FlyAction.killLogs ∉ runModeFlyTrace (LaunchOutcome.spawnError msg) := by
  constructor
  · show FlyAction.killLogs ∈
      [FlyAction.subscribeLogs, FlyAction.sleepConnect, FlyAction.launchMachine,
       FlyAction.awaitSignal, FlyAction.flushSleep, FlyAction.killLogs]
    decide
  · show FlyAction.killLogs ∉
      [FlyAction.subscribeLogs, FlyAction.sleepConnect, FlyAction.launchMachine]
    decide

/-- C4 counterexample: with no environment override and a credentials file
whose token expires 1 millisecond in the future (strictly in the future),
the resolver does not return the token — it exits with the expired
message, because the displayed hours-left figure rounds to 0.0. -/
theorem c4_counterexample :
    (0 : Int) < 1 ∧
    resolveToken { envToken := none, creds := some { accessToken := some "tok", expiresAt := 1 }, nowMs := 0 }
      = ResolveOutcome.exit1 MSG_EXPIRED ∧
    resolveToken { envToken := none, creds := some { accessToken := some "tok", expiresAt := 1 }, nowMs := 0 }
      ≠ ResolveOutcome.ok "tok" TokenSource.credFile := by
  decide

/-- C4 (amended): the resolver tries the environment override first and
then the credentials file, returning the first source with a non-empty
value; a file credential is returned only when at least 180000
milliseconds (the granularity of the one-decimal hours display) remain
until expiresAt — so a credential expiring sooner, even strictly in the
future, is never returned, and a credential at or past expiry is never
returned. -/
theorem c4_amended (env : ResolveEnv) (v : String) (s : TokenSource)
    (h : resolveToken env = ResolveOutcome.ok v s) :
    (s = TokenSource.envVar → env.envToken = some v ∧ v ≠ "") ∧
    (s = TokenSource.credFile → jsTruthy env.envToken = false ∧
      ∃ c, env.creds = some c ∧ c.accessToken = some v ∧ v ≠ "" ∧
        180000 ≤ c.expiresAt - env.nowMs) := by
  obtain ⟨et, cr, now⟩ := env
  cases et with
  | some t =>
    by_cases ht : t = ""
    · subst ht
      have hfall : resolveToken ⟨some "", cr, now⟩ = resolveFromCredsFile cr now := by
        simp [resolveToken]
      rw [hfall] at h
      obtain ⟨hs, hrest⟩ := resolveFromCredsFile_ok cr now v s h
      subst hs
      exact ⟨fun hcontra => absurd hcontra (by decide), fun _ => ⟨rfl, hrest⟩⟩
    · have hok : resolveToken ⟨some t, cr, now⟩ = ResolveOutcome.ok t TokenSource.envVar := by
        simp [resolveToken, ht]
      rw [hok] at h
      injection h with hv hs
      subst hv
      subst hs
      exact ⟨fun _ => ⟨rfl, ht⟩, fun hcf => absurd hcf (by decide)⟩
  | none =>
    have hfall : resolveToken ⟨none, cr, now⟩ = resolveFromCredsFile cr now := rfl
    rw [hfall] at h
    obtain ⟨hs, hrest⟩ := resolveFromCredsFile_ok cr now v s h
    subst hs
    exact ⟨fun hcontra => absurd hcontra (by decide), fun _ => ⟨rfl, hrest⟩⟩

/-- Witness for C4 (amended): a file credential with 200000 milliseconds
remaining is returned from the credentials-file source. -/
theorem c4_amended_witness :
    (TokenSource.credFile = TokenSource.envVar →
      ({ envToken := none, creds := some { accessToken := some "tok", expiresAt := 200000 }, nowMs := 0 } : ResolveEnv).envToken = some "tok" ∧ "tok" ≠ "") ∧
    (TokenSource.credFile = TokenSource.credFile →
      jsTruthy ({ envToken := none, creds := some { accessToken := some "tok", expiresAt := 200000 }, nowMs := 0 } : ResolveEnv).envToken = false ∧
      ∃ c, ({ envToken := none, creds := some { accessToken := some "tok", expiresAt := 200000 }, nowMs := 0 } : ResolveEnv).creds = some c ∧
        c.accessToken = some "tok" ∧ "tok" ≠ "" ∧
        180000 ≤ c.expiresAt - ({ envToken := none, creds := some { accessToken := some "tok", expiresAt := 200000 }, nowMs := 0 } : ResolveEnv).nowMs) :=
  c4_amended
    { envToken := none, creds := some { accessToken := some "tok", expiresAt := 200000 }, nowMs := 0 }
    "tok" TokenSource.credFile (by decide)

/-- C5: calling ensureSandboxReady again when the persistent sandbox is
already listed is idempotent — the creation command is not attempted, no
error is raised, and the call proceeds directly to credential injection. -/
theorem c5_ensure_idempotent (w : SandboxWorld) (h : sandboxExists w.lsOutput = true) :
    ensureSandboxReady w = Except.ok [EnsureAction.inject] := by
  simp [ensureSandboxReady, h]

/-- Witness for C5: a listing that shows the sandbox makes the second call
a pure injection dispatch. -/
theorem c5_ensure_idempotent_witness :
    ensureSandboxReady { lsOutput := some "NAME\ncpm-demo-persistent", createFails := false }
      = Except.ok [EnsureAction.inject] :=
  c5_ensure_idempotent
    { lsOutput := some "NAME\ncpm-demo-persistent", createFails := false } (by decide)

/-- C6: whenever the CLAUDE_CODE_OAUTH_TOKEN environment variable holds a
non-empty value, resolveToken returns exactly that value from the override
source, independently of the credentials file and of any expiry state; the
source contains no refresh invocation at all, so in particular none is
reached on this path. -/
theorem c6_env_override (env : ResolveEnv) (t : String)
    (h1 : env.envToken = some t) (h2 : t ≠ "") :
    resolveToken env = ResolveOutcome.ok t TokenSource.envVar := by
  unfold resolveToken
  rw [h1]
  simp [h2]

/-- Witness for C6: the override wins even over an expired file entry. -/
theorem c6_env_override_witness :
    resolveToken { envToken := some "envtok", creds := some { accessToken := some "filetok", expiresAt := -1000 }, nowMs := 0 }
      = ResolveOutcome.ok "envtok" TokenSource.envVar :=
  c6_env_override
    { envToken := some "envtok", creds := some { accessToken := some "filetok", expiresAt := -1000 }, nowMs := 0 }
    "envtok" rfl (by decide)

/-- C7: a file credential past expiry makes resolveToken exit with the
expired first error line, a run with no credential source at all exits
with the no-token first error line, and the two lines differ — the two
failure outcomes are observably distinct. -/
theorem c7_distinct_failures (env : ResolveEnv) (c : CredsJson) (tok : String)
    (henv : jsTruthy env.envToken = false)
    (hc : env.creds = some c) (ht : c.accessToken = some tok) (hne : tok ≠ "")
    (hpast : c.expiresAt ≤ env.nowMs) :
    resolveToken env = ResolveOutcome.exit1 MSG_EXPIRED ∧
    (∀ env2 : ResolveEnv, jsTruthy env2.envToken = false → env2.creds = none →
      resolveToken env2 = ResolveOutcome.exit1 MSG_NO_TOKEN) ∧
    MSG_EXPIRED ≠ MSG_NO_TOKEN := by
  refine ⟨?_, ?_, by decide⟩
  · rw [resolveToken_falsy env henv, hc]
    have hexp : hoursLeftNonpos (c.expiresAt - env.nowMs) = true := by
      unfold hoursLeftNonpos
      simp
      omega
    simp [resolveFromCredsFile, ht, hne, hexp]
  · intro env2 h2 hn
    rw [resolveToken_falsy env2 h2, hn]
    rfl

/-- Witness for C7: a token one second past expiry yields the expired
line, which differs from the no-token line. -/
theorem c7_distinct_failures_witness :
    resolveToken { envToken := none, creds := some { accessToken := some "oldtok", expiresAt := 0 }, nowMs := 1000 }
      = ResolveOutcome.exit1 MSG_EXPIRED ∧
    MSG_EXPIRED ≠ MSG_NO_TOKEN :=
  ⟨(c7_distinct_failures
      { envToken := none, creds := some { accessToken := some "oldtok", expiresAt := 0 }, nowMs := 1000 }
      { accessToken := some "oldtok", expiresAt := 0 } "oldtok" rfl rfl rfl (by decide) (by decide)).1,
   (c7_distinct_failures
      { envToken := none, creds := some { accessToken := some "oldtok", expiresAt := 0 }, nowMs := 1000 }
      { accessToken := some "oldtok", expiresAt := 0 } "oldtok" rfl rfl rfl (by decide) (by decide)).2.2⟩

/-- C8: on every run of the correlation phase, whichever way the launch
call ends, the log subscription is spawned first, then the settle sleep
runs, and only then is the launch call issued — the subscription is live
before the machine can emit its exit marker. -/
theorem c8_subscribe_before_launch (launch : LaunchOutcome) :
    ∃ rest, runModeFlyTrace launch =
      FlyAction.subscribeLogs :: FlyAction.sleepConnect :: FlyAction.launchMachine :: rest := by
  cases launch with
  | spawnError msg => exact ⟨[], rfl⟩
  | closed code =>
    exact ⟨[FlyAction.awaitSignal, FlyAction.flushSleep, FlyAction.killLogs], rfl⟩

/-- C9: log chunks delivered while machineId is still null never change
the correlation state — they are discarded and never re-examined — so a
matching exit marker that arrives only during that window leaves the exit
promise pending and, when nothing after the identifier parse matches
either, the race is won by the 5-minute timer. -/
theorem c9_premature_marker_discarded (pre : List String) (rest : List FlyEvent) :
    flyRun (pre.map FlyEvent.logChunk ++ rest) = flyRun rest ∧
    ((flyRun rest).exitSignaled = false →
      awaitExit (flyRun (pre.map FlyEvent.logChunk ++ rest)).exitSignaled = AwaitOutcome.timedOut) := by
  have hnoop : ∀ (l : List String) (st : FlyState), st.machineId = none →
      List.foldl flyStep st (l.map FlyEvent.logChunk) = st := by
    intro l
    induction l with
    | nil => intro st _; rfl
    | cons c cs ih =>
      intro st h
      have hsig : chunkSignalsExit st.machineId c = false := by
        rw [h]
        rfl
      have hstep : flyStep st (FlyEvent.logChunk c) = st := by
        show (if chunkSignalsExit st.machineId c then { st with exitSignaled := true } else st) = st
        rw [hsig]
        rfl
      rw [List.map_cons, List.foldl_cons, hstep]
      exact ih st h
  have hmain : flyRun (pre.map FlyEvent.logChunk ++ rest) = flyRun rest := by
    unfold flyRun
    rw [List.foldl_append, hnoop pre flyInit rfl]
  refine ⟨hmain, fun h => ?_⟩
  rw [hmain]
  simp [awaitExit, h]

/-- Witness for C9: a full matching exit marker delivered before the
Machine ID line is parsed is discarded, and the run then times out. -/
theorem c9_premature_marker_discarded_witness :
    (flyRun [FlyEvent.launchStdout "Machine ID: m1"]).exitSignaled = false ∧
    awaitExit (flyRun (["runner[m1] machine restart policy set to \x27no\x27, not restarting"].map FlyEvent.logChunk
        ++ [FlyEvent.launchStdout "Machine ID: m1"])).exitSignaled = AwaitOutcome.timedOut :=
  ⟨by decide,
   (c9_premature_marker_discarded
      ["runner[m1] machine restart policy set to \x27no\x27, not restarting"]
      [FlyEvent.launchStdout "Machine ID: m1"]).2 (by decide)⟩

/-- C10: the existence check is a substring test over the listing output —
whenever the fixed sandbox name occurs anywhere within any line of the
listing, including inside a longer name, the sandbox is reported as
existing and the creation step is skipped. -/
theorem c10_substring_existence (out line : String) (cf : Bool)
    (hmem : line ∈ jsSplitLines out)
    (hinc : jsIncludes line SANDBOX_NAME = true) :
    sandboxExists (some out) = true ∧
    ensureSandboxReady { lsOutput := some out, createFails := cf } = Except.ok [EnsureAction.inject] := by
  have hex : sandboxExists (some out) = true := by
    unfold sandboxExists
    rw [List.any_eq_true]
    exact ⟨line, hmem, hinc⟩
  exact ⟨hex, by simp [ensureSandboxReady, hex]⟩

/-- Witness for C10: a listing naming only cpm-demo-persistent-2 is
reported as containing the persistent sandbox, and creation is skipped
even though creating would fail. -/
theorem c10_substring_existence_witness :
    sandboxExists (some "cpm-demo-persistent-2   running") = true ∧
    ensureSandboxReady { lsOutput := some "cpm-demo-persistent-2   running", createFails := true }
      = Except.ok [EnsureAction.inject] :=
  c10_substring_existence "cpm-demo-persistent-2   running" "cpm-demo-persistent-2   running" true
    (by decide) (by decide)
